import Mathlib

/-!
Shallow embedding of the core of the `security_detection` event pipeline:
the ensemble scorer (`api/services/ml_service.py`), the correlation route
(`api/routes/correlation.py`), and the Kafka event processor with its
persistence queue, retrying writer and threat-indicator upsert
(`api/services/kafka_service.py`).  Machine floats are modelled as `ℚ`;
Python dicts with fixed key sets are modelled as structures, `.get` with a
default as `Option.getD`.
-/

namespace SecurityDetection

/-! ## Ensemble scorer (`ml_service.py`) -/

/-- Model weights of `MLService._ensemble_predictions`:
`{"xgboost": 0.4, "random_forest": 0.3, "isolation_forest": 0.3}` looked up
with `weights.get(model_name, 0.2)`. -/
def modelWeight (model_name : String) : ℚ :=
  if model_name = "xgboost" then 4/10
  else if model_name = "random_forest" then 3/10
  else if model_name = "isolation_forest" then 3/10
  else 2/10

/-- The accumulated `weighted_sum` of the loop in `_ensemble_predictions`. -/
def weightedSum (predictions : List (String × ℚ)) : ℚ :=
  (predictions.map (fun p => p.2 * modelWeight p.1)).sum

/-- The accumulated `total_weight` of the loop in `_ensemble_predictions`. -/
def totalWeight (predictions : List (String × ℚ)) : ℚ :=
  (predictions.map (fun p => modelWeight p.1)).sum

/-- `MLService._ensemble_predictions(predictions)`: returns 0.5 on an empty
mapping, otherwise `weighted_sum / total_weight if total_weight > 0 else 0.5`. -/
def _ensemble_predictions (predictions : List (String × ℚ)) : ℚ :=
  if predictions = [] then 5/10
  else if 0 < totalWeight predictions then weightedSum predictions / totalWeight predictions
  else 5/10

/-- The prediction-aggregation core of `MLService.predict_threat`: after the
per-model loop has filled `predictions`, the code raises
`Exception("No models available for prediction")` when `predictions` is empty
and otherwise computes the ensemble threat score. -/
def predict_threat_score (predictions : List (String × ℚ)) : Except String ℚ :=
  if predictions = [] then .error "No models available for prediction"
  else .ok (_ensemble_predictions predictions)

/-- A definition following the SPEC's words for the C3 weight table
(`0.4/0.35/0.25` for the three model slots, `0.2` otherwise), to be compared
with `modelWeight` taken from the source. -/
def specModelWeightC3 (model_name : String) : ℚ :=
  if model_name = "xgboost" then 4/10
  else if model_name = "random_forest" then 35/100
  else if model_name = "isolation_forest" then 25/100
  else 2/10

/-- Ensemble score computed with the spec's claimed weight table. -/
def specEnsembleC3 (predictions : List (String × ℚ)) : ℚ :=
  (predictions.map (fun p => p.2 * specModelWeightC3 p.1)).sum /
    (predictions.map (fun p => specModelWeightC3 p.1)).sum

theorem modelWeight_ge (model_name : String) : 2/10 ≤ modelWeight model_name := by
  unfold modelWeight
  split <;> norm_num
  split <;> norm_num
  split <;> norm_num

theorem totalWeight_pos (predictions : List (String × ℚ)) (h : predictions ≠ []) :
    0 < totalWeight predictions := by
  match predictions with
  | [] => exact absurd rfl h
  | p :: rest =>
    have hrest : 0 ≤ (rest.map (fun p => modelWeight p.1)).sum := by
      apply List.sum_nonneg
      intro x hx
      obtain ⟨q, _, rfl⟩ := List.mem_map.mp hx
      have := modelWeight_ge q.1
      linarith
    have hp := modelWeight_ge p.1
    unfold totalWeight
    simp only [List.map_cons, List.sum_cons]
    linarith

/-- C2 counterexample: with zero model predictions, `predict_threat` does not
return a neutral score of 0.5 — the aggregation raises instead. -/
theorem C2_empty_predictions_not_neutral :
    predict_threat_score [] ≠ Except.ok (5/10) ∧
    ¬ (predict_threat_score []).isOk := by
  constructor
  · intro h
    simp [predict_threat_score] at h
  · simp [predict_threat_score, Except.isOk, Except.toBool]

/-- C2 (amended): if zero classifier models produce a prediction,
`predict_threat` raises `Exception("No models available for prediction")`
rather than returning a neutral score; the `_ensemble_predictions` helper
alone would map an empty prediction set to 0.5, but it is unreachable there. -/
theorem C2_empty_predictions_raise :
    predict_threat_score [] = Except.error "No models available for prediction" ∧
    _ensemble_predictions [] = 5/10 := by
  constructor <;> rfl

/-- C3 counterexample: on predictions `{xgboost: 0, random_forest: 1}` the
source ensemble gives `0.3/0.7 = 3/7`, while the spec's claimed weight table
(0.4/0.35/0.25) would give `0.35/0.75 = 7/15`; they differ. -/
theorem C3_spec_weights_refuted :
    _ensemble_predictions [("xgboost", 0), ("random_forest", 1)] = 3/7 ∧
    specEnsembleC3 [("xgboost", 0), ("random_forest", 1)] = 7/15 ∧
    _ensemble_predictions [("xgboost", 0), ("random_forest", 1)] ≠
      specEnsembleC3 [("xgboost", 0), ("random_forest", 1)] := by
  refine ⟨?_, ?_, ?_⟩ <;>
  · simp [_ensemble_predictions, specEnsembleC3, weightedSum, totalWeight,
      modelWeight, specModelWeightC3]
    norm_num

/-- C3 (amended): for every non-empty prediction mapping the ensemble score is
the weighted sum of per-model scores divided by the sum of the weights actually
present, where the default weights are 0.4 for `xgboost`, 0.3 for
`random_forest`, 0.3 for `isolation_forest`, and 0.2 for any unrecognized
model; the normalization divides by the total present weight. -/
theorem C3_ensemble_weighted_average (predictions : List (String × ℚ))
    (h : predictions ≠ []) :
    _ensemble_predictions predictions = weightedSum predictions / totalWeight predictions ∧
    modelWeight "xgboost" = 4/10 ∧
    modelWeight "random_forest" = 3/10 ∧
    modelWeight "isolation_forest" = 3/10 ∧
    (∀ s : String, s ≠ "xgboost" → s ≠ "random_forest" → s ≠ "isolation_forest" →
      modelWeight s = 2/10) := by
  refine ⟨?_, rfl, rfl, rfl, ?_⟩
  · unfold _ensemble_predictions
    rw [if_neg h, if_pos (totalWeight_pos predictions h)]
  · intro s h1 h2 h3
    unfold modelWeight
    rw [if_neg h1, if_neg h2, if_neg h3]

/-- Witness for C3 at the concrete input `[("mystery_model", 1)]`. -/
theorem C3_ensemble_weighted_average_witness :
    _ensemble_predictions [("mystery_model", 1)] =
      weightedSum [("mystery_model", 1)] / totalWeight [("mystery_model", 1)] :=
  (C3_ensemble_weighted_average [("mystery_model", 1)] (by decide)).1

/-! ## Correlation engine (`api/routes/correlation.py`) -/

/-- Python `str.lower()`, modelled characterwise. -/
def strLower (s : String) : String := ⟨s.data.map Char.toLower⟩

/-- A related event row fetched by `find_related_events` (columns of the
`security.events` SELECT that pattern/anomaly analysis reads); `created_at`
is a timestamp in seconds. -/
structure RelatedEvent where
  event_type : String
  severity : String
  created_at : Option ℚ
deriving DecidableEq

/-- The `event_data` dict of a correlation request; analysis reads its keys
with `.get` and a default, so each field is optional. -/
structure CurrentEvent where
  threat_type : Option String
  severity : Option String
  risk_score : Option ℚ
deriving DecidableEq

/-- The `severity_levels` dict `{"low": 1, "medium": 2, "high": 3, "critical": 4}`
looked up with `.get(s.lower(), dflt)`. -/
def severityLevel (s : String) (dflt : ℕ) : ℕ :=
  if strLower s = "low" then 1
  else if strLower s = "medium" then 2
  else if strLower s = "high" then 3
  else if strLower s = "critical" then 4
  else dflt

/-- `same_type_count = sum(1 for et in event_types if et == current_type)`. -/
def sameTypeCount (related : List RelatedEvent) (current_type : String) : ℕ :=
  (related.filter (fun e => e.event_type = current_type)).length

/-- Python slice `l[-n:]`. -/
def lastN (n : ℕ) (l : List ℕ) : List ℕ := l.drop (l.length - n)

/-- Python `max(l)`; the code only applies it to non-empty lists, where
`foldl max 0` agrees with it. -/
def listMaxNat (l : List ℕ) : ℕ := l.foldl max 0

/-- Result dict of `analyze_event_patterns` (the `pattern_details` entry is
not modelled; no claim mentions it). -/
structure PatternResult where
  primary_pattern : String
  pattern_confidence : ℚ
deriving DecidableEq

/-- `analyze_event_patterns(related_events, current_event)`: priority chain
repetitive_attack / escalation / burst_activity / sequence, with
`single_event` for an empty history. -/
def analyze_event_patterns (related : List RelatedEvent) (current : CurrentEvent) :
    PatternResult :=
  if related = [] then ⟨"single_event", 0⟩
  else
    let current_type := current.threat_type.getD "unknown"
    if 3 ≤ related.length ∧ 3 ≤ sameTypeCount related current_type then
      ⟨"repetitive_attack",
        min (9/10) ((sameTypeCount related current_type : ℚ) / (related.length : ℚ))⟩
    else
      let severities := related.map (fun e => severityLevel e.severity 1)
      let current_severity := severityLevel (current.severity.getD "medium") 2
      if 2 ≤ severities.length ∧ listMaxNat (lastN 3 severities) < current_severity then
        ⟨"escalation", 8/10⟩
      else if 5 ≤ related.length then
        ⟨"burst_activity", 7/10⟩
      else
        ⟨"sequence", 5/10⟩

theorem length_pos_ne_nil {α : Type} {l : List α} (h : 1 ≤ l.length) : l ≠ [] := by
  intro hnil
  rw [hnil] at h
  simp at h

/-- C5: with at least 3 related events of which at least 3 share the current
event's type, the pattern is `repetitive_attack` with confidence
`min(0.9, same_type_count/total)`, regardless of any lower-priority condition
(in particular the burst condition `≥5 events`). -/
theorem C5_repetitive_attack_priority (related : List RelatedEvent)
    (current : CurrentEvent) (h3 : 3 ≤ related.length)
    (hsame : 3 ≤ sameTypeCount related (current.threat_type.getD "unknown")) :
    analyze_event_patterns related current =
      ⟨"repetitive_attack",
        min (9/10)
          ((sameTypeCount related (current.threat_type.getD "unknown") : ℚ) /
            (related.length : ℚ))⟩ := by
  unfold analyze_event_patterns
  rw [if_neg (length_pos_ne_nil (by omega)), if_pos ⟨h3, hsame⟩]

/-- Witness for C5: six same-type related events (so the burst condition
`≥5` also holds) still classify as `repetitive_attack`. -/
theorem C5_repetitive_attack_priority_witness :
    analyze_event_patterns
        (List.replicate 6 ⟨"brute_force", "low", none⟩)
        ⟨some "brute_force", some "high", none⟩ =
      ⟨"repetitive_attack",
        min (9/10)
          ((sameTypeCount (List.replicate 6 ⟨"brute_force", "low", none⟩)
              ((some "brute_force").getD "unknown") : ℚ) /
            ((List.replicate 6 (⟨"brute_force", "low", none⟩ : RelatedEvent)).length : ℚ))⟩ ∧
    5 ≤ (List.replicate 6 (⟨"brute_force", "low", none⟩ : RelatedEvent)).length :=
  ⟨C5_repetitive_attack_priority
      (List.replicate 6 ⟨"brute_force", "low", none⟩)
      ⟨some "brute_force", some "high", none⟩ (by decide) (by decide),
    by decide⟩

/-- C4 counterexample: a single related event of severity `low` with a current
severity `high` satisfies the claim's hypotheses (repetitive condition fails,
current severity exceeds the max severity of the last 3 related events), yet
the code classifies `sequence`, not `escalation` — the escalation branch also
requires at least 2 related events. -/
theorem C4_escalation_refuted_one_event :
    ¬ (3 ≤ ([⟨"x", "low", none⟩] : List RelatedEvent).length ∧
        3 ≤ sameTypeCount [⟨"x", "low", none⟩] ((some "y").getD "unknown")) ∧
    listMaxNat (lastN 3 (([⟨"x", "low", none⟩] : List RelatedEvent).map
        (fun e => severityLevel e.severity 1))) <
      severityLevel ((some "high").getD "medium") 2 ∧
    analyze_event_patterns [⟨"x", "low", none⟩] ⟨some "y", some "high", none⟩ =
      ⟨"sequence", 5/10⟩ := by
  refine ⟨by decide, by decide, ?_⟩
  simp [analyze_event_patterns, sameTypeCount, severityLevel, strLower,
    listMaxNat, lastN]

/-- C4 (amended): with at least 2 related events, if the repetitive_attack
condition does not hold and the current event's severity level exceeds the
maximum severity level of the last 3 entries of the related-event list
(which is ordered most recent first), the pattern is `escalation` with
confidence 0.8. -/
theorem C4_escalation_pattern (related : List RelatedEvent) (current : CurrentEvent)
    (h2 : 2 ≤ related.length)
    (hrep : ¬ (3 ≤ related.length ∧
        3 ≤ sameTypeCount related (current.threat_type.getD "unknown")))
    (hesc : listMaxNat (lastN 3 (related.map (fun e => severityLevel e.severity 1))) <
        severityLevel (current.severity.getD "medium") 2) :
    analyze_event_patterns related current = ⟨"escalation", 8/10⟩ := by
  unfold analyze_event_patterns
  rw [if_neg (length_pos_ne_nil (by omega)), if_neg hrep]
  rw [if_pos ⟨by simpa using h2, hesc⟩]

/-- Witness for C4: two `low` related events and a `critical` current event
classify as `escalation` with confidence 0.8. -/
theorem C4_escalation_pattern_witness :
    analyze_event_patterns
        [⟨"a", "low", none⟩, ⟨"b", "low", none⟩]
        ⟨some "c", some "critical", none⟩ =
      ⟨"escalation", 8/10⟩ :=
  C4_escalation_pattern [⟨"a", "low", none⟩, ⟨"b", "low", none⟩]
    ⟨some "c", some "critical", none⟩ (by decide) (by decide) (by decide)

/-- The `pattern_multipliers` dict of `calculate_risk_adjustment`, looked up
with `.get(pattern, 1.0)`. -/
def patternMultiplier (pattern : String) : ℚ :=
  if pattern = "repetitive_attack" then 15/10
  else if pattern = "escalation" then 18/10
  else if pattern = "burst_activity" then 13/10
  else if pattern = "sequence" then 11/10
  else if pattern = "single_event" then 1
  else 1

/-- `calculate_risk_adjustment(pattern_analysis, anomaly_score)`:
`base 1.0 × pattern multiplier × (1 + 0.5·anomaly) × (1 + 0.3·confidence)`,
capped into `[0.5, 3.0]` by `min(3.0, max(0.5, _))`. -/
def calculate_risk_adjustment (pattern_analysis : PatternResult)
    (anomaly_score : ℚ) : ℚ :=
  let pattern_adjustment := patternMultiplier pattern_analysis.primary_pattern
  let anomaly_adjustment := 1 + anomaly_score * (5/10)
  let confidence_adjustment := 1 + pattern_analysis.pattern_confidence * (3/10)
  min 3 (max (1/2) (1 * pattern_adjustment * anomaly_adjustment * confidence_adjustment))

theorem patternMultiplier_pos (pattern : String) : 0 < patternMultiplier pattern := by
  unfold patternMultiplier
  split
  · norm_num
  split
  · norm_num
  split
  · norm_num
  split
  · norm_num
  split <;> norm_num

/-- Python `max(l)` over rationals; the code only applies it to non-empty
lists, and the `[]` case is arbitrary. -/
def listMaxQ (l : List ℚ) : ℚ :=
  match l with
  | [] => 0
  | x :: xs => xs.foldl max x

/-- Python `min(l)` over rationals; the code only applies it to non-empty
lists, and the `[]` case is arbitrary. -/
def listMinQ (l : List ℚ) : ℚ :=
  match l with
  | [] => 0
  | x :: xs => xs.foldl min x

/-- `calculate_anomaly_score(related_events, current_event)`: returns the
neutral score 0.5 for an empty history, otherwise accumulates the frequency,
severity, risk-score and time-clustering contributions into
`min(1.0, base_score)`. -/
def calculate_anomaly_score (related : List RelatedEvent) (current : CurrentEvent) : ℚ :=
  if related = [] then 5/10
  else
    let event_count := related.length
    let freq_contrib : ℚ :=
      if 10 ≤ event_count then 4/10 else if 5 ≤ event_count then 2/10 else 0
    let current_severity := strLower (current.severity.getD "medium")
    let sev_contrib : ℚ :=
      if current_severity = "high" ∨ current_severity = "critical" then 3/10 else 0
    let current_risk := current.risk_score.getD 0
    let risk_contrib : ℚ :=
      if 8 ≤ current_risk then 3/10 else if 6 ≤ current_risk then 2/10 else 0
    let timestamps := related.filterMap (fun e => e.created_at)
    let cluster_contrib : ℚ :=
      if 3 ≤ event_count ∧ 3 ≤ timestamps.length ∧
          listMaxQ timestamps - listMinQ timestamps < 3600 then 2/10
      else 0
    min 1 (freq_contrib + sev_contrib + risk_contrib + cluster_contrib)

/-- C6: the risk adjustment equals base 1.0 times the pattern multiplier,
times `1 + 0.5·anomaly_score`, times `1 + 0.3·pattern_confidence`, clamped to
`[0.5, 3.0]`; for a fixed pattern it is monotonically non-decreasing in
`anomaly_score` (on confidence ≥ 0) and in `pattern_confidence` (on
anomaly ≥ 0), and its value always lies in `[0.5, 3.0]`. -/
theorem C6_risk_adjustment_formula (p : String) (c a a2 c2 : ℚ) :
    calculate_risk_adjustment ⟨p, c⟩ a =
      min 3 (max (1/2)
        (1 * patternMultiplier p * (1 + a * (5/10)) * (1 + c * (3/10)))) ∧
    (0 ≤ c → a ≤ a2 →
      calculate_risk_adjustment ⟨p, c⟩ a ≤ calculate_risk_adjustment ⟨p, c⟩ a2) ∧
    (0 ≤ a → c ≤ c2 →
      calculate_risk_adjustment ⟨p, c⟩ a ≤ calculate_risk_adjustment ⟨p, c2⟩ a) ∧
    1/2 ≤ calculate_risk_adjustment ⟨p, c⟩ a ∧
    calculate_risk_adjustment ⟨p, c⟩ a ≤ 3 := by
  have hp := patternMultiplier_pos p
  refine ⟨rfl, ?_, ?_, ?_, ?_⟩
  · intro hc h
    unfold calculate_risk_adjustment
    dsimp only
    refine min_le_min le_rfl (max_le_max le_rfl ?_)
    nlinarith [mul_nonneg
      (mul_pos hp (show (0:ℚ) < 1 + c * (3/10) by linarith)).le
      (show (0:ℚ) ≤ a2 - a by linarith)]
  · intro ha h
    unfold calculate_risk_adjustment
    dsimp only
    refine min_le_min le_rfl (max_le_max le_rfl ?_)
    nlinarith [mul_nonneg
      (mul_pos hp (show (0:ℚ) < 1 + a * (5/10) by linarith)).le
      (show (0:ℚ) ≤ c2 - c by linarith)]
  · exact le_min (by norm_num) (le_max_left _ _)
  · exact min_le_left _ _

/-- Witness for C6 at the spec's example pattern `escalation` with
confidence 0.9: the adjustment at anomaly 0 is at most the adjustment at
anomaly 1. -/
theorem C6_risk_adjustment_formula_witness :
    calculate_risk_adjustment ⟨"escalation", 9/10⟩ 0 ≤
      calculate_risk_adjustment ⟨"escalation", 9/10⟩ 1 :=
  (C6_risk_adjustment_formula "escalation" (9/10) 0 1 (9/10)).2.1 (by norm_num)
    (by norm_num)

/-- C9: an empty related-event history yields the neutral anomaly score 0.5
(not 0), while a single low-severity, zero-risk related event yields 0, which
is strictly below the empty-history score. -/
theorem C9_empty_history_neutral_score :
    (∀ current : CurrentEvent, calculate_anomaly_score [] current = 5/10) ∧
    calculate_anomaly_score [⟨"x", "low", some 0⟩] ⟨some "y", some "low", some 0⟩ = 0 ∧
    calculate_anomaly_score [⟨"x", "low", some 0⟩] ⟨some "y", some "low", some 0⟩ <
      calculate_anomaly_score [] ⟨some "y", some "low", some 0⟩ := by
  have hempty : ∀ current : CurrentEvent, calculate_anomaly_score [] current = 5/10 :=
    fun _ => rfl
  have hone : calculate_anomaly_score [⟨"x", "low", some 0⟩]
      ⟨some "y", some "low", some 0⟩ = 0 := by
    simp [calculate_anomaly_score, strLower, listMaxQ, listMinQ]
    norm_num
  refine ⟨hempty, hone, ?_⟩
  rw [hone, hempty]
  norm_num

/-! ## Kafka event processor (`api/services/kafka_service.py`) -/

/-- The `event_data` dict consumed by `SecurityEventProcessor`; every key is
read with `.get`, so each field is optional. -/
structure EventData where
  event_id : Option String
  threat_type : Option String
  description : Option String
  risk_score : Option ℚ
  source_ip : Option String
  target_ip : Option String
  destination_ip : Option String
  user_id : Option String
  endpoint : Option String
  domain : Option String
  file_hash : Option String
deriving DecidableEq

/-- Python `x or y` on two optional strings (`None` and `""` are falsy). -/
def pyOrStr (x y : Option String) : Option String :=
  match x with
  | some s => if s = "" then y else some s
  | none => y

/-- `SecurityEventProcessor._map_risk_to_severity`. -/
def _map_risk_to_severity (risk_score : ℚ) : String :=
  if 9 ≤ risk_score then "critical"
  else if 7 ≤ risk_score then "high"
  else if 5 ≤ risk_score then "medium"
  else "low"

/-- The row inserted into `security.events` by `store_security_event`
(`created_at`/`updated_at` are `NOW()` and `assigned_to` is `NULL`; they are
not modelled). -/
structure EventRow where
  event_type : String
  description : String
  severity : String
  status : String
  source_ip : Option String
  destination_ip : Option String
  user_id : Option String
  endpoint : Option String
  ml_score : Option ℚ
deriving DecidableEq

/-- The field mapping of `store_security_event`: how an inserted
`security.events` row is built from the event dict. -/
def eventRow (e : EventData) : EventRow :=
  let event_type := e.threat_type.getD "unknown"
  { event_type := event_type
    description := e.description.getD (event_type ++ " detected")
    severity := _map_risk_to_severity (e.risk_score.getD 0)
    status := if 7 ≤ e.risk_score.getD 0 then "open" else "investigating"
    source_ip := e.source_ip
    destination_ip := pyOrStr e.target_ip e.destination_ip
    user_id := e.user_id
    endpoint := e.endpoint
    ml_score := e.risk_score }

/-- A threat-intelligence indicator extracted by `_store_threat_intelligence`. -/
structure Indicator where
  indicator_type : String
  indicator_value : String
  threat_type : String
  confidence : ℚ
deriving DecidableEq

/-- The indicator-extraction loop of `_store_threat_intelligence`: one `ip`,
`domain` and `hash` indicator per present, non-empty field, each with
confidence `risk_score / 10`. -/
def extractIndicators (e : EventData) : List Indicator :=
  let tt := e.threat_type.getD "unknown"
  let conf := e.risk_score.getD 0 / 10
  (match e.source_ip with
    | some s => if s = "" then [] else [⟨"ip", s, tt, conf⟩]
    | none => []) ++
  (match e.domain with
    | some s => if s = "" then [] else [⟨"domain", s, tt, conf⟩]
    | none => []) ++
  (match e.file_hash with
    | some s => if s = "" then [] else [⟨"hash", s, tt, conf⟩]
    | none => [])

/-- A structlog call: level, message, and the keyword field names passed. -/
structure LogRecord where
  level : String
  message : String
  fields : List String
deriving DecidableEq

/-- Observable outcome of one `store_security_event` call: how many write
attempts ran, the row stored (if any), the indicators upserted alongside it,
the log records emitted, and the post-failure backoff sleeps
(`retry_delay * 2 ** attempt`). The Python coroutine always returns `None`;
failures are consumed by the retry loop and never re-raised, which is why the
model's return type carries no error case. -/
structure WriterResult where
  attempts : ℕ
  stored : Option EventRow
  indicators : List Indicator
  logs : List LogRecord
  backoffs : List ℚ
deriving DecidableEq

/-- The `for attempt in range(max_retries)` loop body of
`store_security_event`, parameterized by `storeOk`, which tells whether the
database transaction of a given attempt succeeds (an always-`false` value
models a store whose every write fails).  A failing attempt aborts its `try`
block at an unspecified point, so only the attempt's initial info log is
modelled for it; the success branch assumes the optional threat-intelligence
step raises nothing (its failure would only add a warning log). -/
def storeAttemptLoop (storeOk : ℕ → Bool) (e : EventData) (max_retries : ℕ)
    (retry_delay : ℚ) : List ℕ → WriterResult
  | [] => ⟨0, none, [], [], []⟩
  | attempt :: rest =>
    let startLog : LogRecord :=
      ⟨"info", "Starting to store security event", ["event_id", "attempt"]⟩
    if storeOk attempt then
      ⟨1, some (eventRow e),
        (if 8 ≤ e.risk_score.getD 0 then extractIndicators e else []),
        [startLog,
          ⟨"info", "Getting database connection from pool", []⟩,
          ⟨"info", "Successfully stored security event in database",
            ["event_id", "threat_type", "risk_score", "database_id", "attempt"]⟩],
        []⟩
    else
      let warnLog : LogRecord :=
        ⟨"warning", "Failed to store security event",
          ["error", "attempt", "max_retries"]⟩
      if attempt = max_retries - 1 then
        ⟨1, none, [],
          [startLog, warnLog,
            ⟨"error", "All attempts to store security event failed",
              ["error", "total_attempts"]⟩],
          []⟩
      else
        let r := storeAttemptLoop storeOk e max_retries retry_delay rest
        ⟨r.attempts + 1, r.stored, r.indicators,
          startLog :: warnLog :: r.logs,
          retry_delay * 2 ^ attempt :: r.backoffs⟩

/-- `SecurityEventProcessor.store_security_event` with its hard-coded
`max_retries = 3` and `retry_delay = 0.5`. -/
def store_security_event (storeOk : ℕ → Bool) (e : EventData) : WriterResult :=
  storeAttemptLoop storeOk e 3 (1/2) (List.range 3)

/-- A store whose every write attempt fails. -/
def alwaysFailStore : ℕ → Bool := fun _ => false

/-- A store whose every write attempt succeeds. -/
def alwaysOkStore : ℕ → Bool := fun _ => true

/-- A sample high-risk task with an identifying `event_id`. -/
def sampleFailingTask : EventData :=
  ⟨some "evt-1", some "malware", none, some (95/10), some "10.0.0.5",
    none, none, none, none, none, none⟩

/-- A sample low-risk event. -/
def sampleLowRiskEvent : EventData :=
  ⟨some "evt-2", some "phishing", none, some 3, none, none, none, none,
    none, none, none⟩

/-- C8 (amended): against a store whose every write attempt fails, the writer
makes exactly `max_retries = 3` store attempts with exponential backoff
(`0.5 · 2^attempt` after each failed non-final attempt), then drops the task
(nothing stored) while emitting exactly one error-level log — which carries
the error and total attempt count, not the task's identifying fields — and
returns normally, never surfacing the failure to the caller. -/
theorem C8_writer_retries_then_drops (e : EventData) :
    (store_security_event alwaysFailStore e).attempts = 3 ∧
    (store_security_event alwaysFailStore e).stored = none ∧
    ((store_security_event alwaysFailStore e).logs.filter
        (fun l => l.level = "error")).length = 1 ∧
    (store_security_event alwaysFailStore e).backoffs =
      [1/2 * 2 ^ 0, 1/2 * 2 ^ 1] := by
  refine ⟨rfl, rfl, rfl, rfl⟩

/-- C8 counterexample: the single error-level log emitted after exhausting the
retries carries only the `error` and `total_attempts` fields — it does not
include the task's identifying fields (such as `event_id`). -/
theorem C8_error_log_lacks_identifying_fields :
    ((store_security_event alwaysFailStore sampleFailingTask).logs.filter
        (fun l => l.level = "error")) =
      [⟨"error", "All attempts to store security event failed",
        ["error", "total_attempts"]⟩] ∧
    "event_id" ∉ ["error", "total_attempts"] :=
  ⟨rfl, by decide⟩

theorem storeAttemptLoop_stored_eq (storeOk : ℕ → Bool) (e : EventData)
    (max_retries : ℕ) (retry_delay : ℚ) (l : List ℕ) (r : EventRow)
    (h : (storeAttemptLoop storeOk e max_retries retry_delay l).stored = some r) :
    r = eventRow e := by
  induction l with
  | nil => simp [storeAttemptLoop] at h
  | cons attempt rest ih =>
    unfold storeAttemptLoop at h
    by_cases hok : storeOk attempt
    · rw [if_pos hok] at h
      simp at h
      exact h.symm
    · rw [if_neg hok] at h
      by_cases hlast : attempt = max_retries - 1
      · rw [if_pos hlast] at h
        simp at h
      · rw [if_neg hlast] at h
        exact ih h

/-- C10: every event row the writer persists carries status `open` when the
event's risk score is at least 7.0 and status `investigating` otherwise. -/
theorem C10_stored_status (storeOk : ℕ → Bool) (e : EventData) (r : EventRow)
    (h : (store_security_event storeOk e).stored = some r) :
    (7 ≤ e.risk_score.getD 0 → r.status = "open") ∧
    (e.risk_score.getD 0 < 7 → r.status = "investigating") := by
  have hr : r = eventRow e :=
    storeAttemptLoop_stored_eq storeOk e 3 (1/2) (List.range 3) r h
  subst hr
  constructor
  · intro h7
    simp [eventRow, if_pos h7]
  · intro h7
    simp [eventRow, if_neg (not_le.mpr h7)]

/-- Witness for C10: a successfully stored risk-3 event enters the store
with status `investigating`. -/
theorem C10_stored_status_witness :
    (eventRow sampleLowRiskEvent).status = "investigating" :=
  (C10_stored_status alwaysOkStore sampleLowRiskEvent
      (eventRow sampleLowRiskEvent) rfl).2
    (by norm_num [sampleLowRiskEvent])

/-! ## Persistence queue (`SecurityEventProcessor.queue_database_operation`) -/

/-- The bounded database-operation queue; `__init__` constructs it as
`Queue(maxsize=100)`, empty. -/
structure DbQueue where
  items : List EventData
  maxsize : ℕ
deriving DecidableEq

/-- The queue as constructed in `SecurityEventProcessor.__init__`. -/
def db_operation_queue_init : DbQueue := ⟨[], 100⟩

/-- Observable outcome of one `queue_database_operation` call. -/
inductive EnqueueOutcome where
  /-- `await put` completed immediately, appending the event. -/
  | queued (q : DbQueue)
  /-- `await put` parked the coroutine until a slot frees (full queue). -/
  | suspendedAwaitingSpace
  /-- the `except asyncio.QueueFull` handler: warning log plus a direct
  `store_security_event` call. -/
  | fallbackDirectWrite (e : EventData)
deriving DecidableEq

/-- `SecurityEventProcessor.queue_database_operation(event_data)`. The body
runs `await self.db_operation_queue.put(event_data)` under an
`except asyncio.QueueFull` handler that logs a warning and stores the event
directly. `asyncio.Queue.put`, however, never raises `QueueFull`: on a full
queue (`0 < maxsize` and at least `maxsize` items) it suspends until a slot
frees — only `put_nowait` raises — so the handler, the `fallbackDirectWrite`
outcome below, is unreachable. -/
def queue_database_operation (q : DbQueue) (e : EventData) : EnqueueOutcome :=
  if 0 < q.maxsize ∧ q.maxsize ≤ q.items.length then
    .suspendedAwaitingSpace
  else
    .queued ⟨q.items ++ [e], q.maxsize⟩

/-- A minimal event (only an id) for the queue scenario. -/
def eventA : EventData :=
  ⟨some "evt-A", none, none, none, none, none, none, none, none, none, none⟩

/-- A second minimal event for the queue scenario. -/
def eventB : EventData :=
  ⟨some "evt-B", none, none, none, none, none, none, none, none, none, none⟩

/-- C1 (code bug): with capacity 1 and one queued event, a second
`queue_database_operation` suspends on `await put` instead of performing the
documented direct synchronous write — the `asyncio.QueueFull` fallback
branch never runs because `asyncio.Queue.put` never raises `QueueFull`. -/
theorem C1_full_queue_suspends_instead_of_direct_write :
    queue_database_operation ⟨[eventA], 1⟩ eventB =
      EnqueueOutcome.suspendedAwaitingSpace ∧
    queue_database_operation ⟨[eventA], 1⟩ eventB ≠
      EnqueueOutcome.fallbackDirectWrite eventB :=
  ⟨rfl, by simp [queue_database_operation]⟩

/-! ## Threat-indicator upsert (`_store_threat_intelligence`) -/

/-- A row of the `security.threat_intel` table, unique on
`(indicator_value, indicator_type)`; timestamps are in seconds. -/
structure TIRecord where
  indicator_type : String
  indicator_value : String
  threat_type : String
  confidence_score : ℚ
  source : String
  description : String
  first_seen : ℚ
  last_seen : ℚ
  is_active : Bool
deriving DecidableEq

/-- The unique key `(indicator_value, indicator_type)` of a row. -/
def tiKey (r : TIRecord) : String × String := (r.indicator_value, r.indicator_type)

/-- The row inserted by the upsert's `INSERT` arm: `NOW()` for both seen
timestamps, source `kafka_events`, active. -/
def freshTIRecord (ind : Indicator) (now : ℚ) : TIRecord :=
  ⟨ind.indicator_type, ind.indicator_value, ind.threat_type, ind.confidence,
    "kafka_events", ind.threat_type ++ " indicator from security event",
    now, now, true⟩

/-- Lookup by the unique key, as the `ON CONFLICT` target does. -/
def tiLookup (tbl : List TIRecord) (key : String × String) : Option TIRecord :=
  match tbl with
  | [] => none
  | r :: rest => if tiKey r = key then some r else tiLookup rest key

/-- The upsert statement of `_store_threat_intelligence`:
`INSERT ... ON CONFLICT (indicator_value, indicator_type) DO UPDATE SET
last_seen = NOW(), confidence_score = GREATEST(existing, new)`. -/
def upsertThreatIndicator (tbl : List TIRecord) (ind : Indicator) (now : ℚ) :
    List TIRecord :=
  match tiLookup tbl (ind.indicator_value, ind.indicator_type) with
  | none => tbl ++ [freshTIRecord ind now]
  | some _ =>
    tbl.map (fun r =>
      if tiKey r = (ind.indicator_value, ind.indicator_type) then
        { r with last_seen := now,
                 confidence_score := max r.confidence_score ind.confidence }
      else r)

theorem tiLookup_append_fresh (tbl : List TIRecord) (k : String × String)
    (x : TIRecord) (hnone : tiLookup tbl k = none) (hx : tiKey x = k) :
    tiLookup (tbl ++ [x]) k = some x := by
  induction tbl with
  | nil => simp [tiLookup, hx]
  | cons r rest ih =>
    by_cases hk : tiKey r = k
    · simp only [tiLookup, if_pos hk] at hnone
      exact absurd hnone (by simp)
    · simp only [tiLookup, if_neg hk] at hnone
      simp only [List.cons_append, tiLookup, if_neg hk]
      exact ih hnone

theorem tiLookup_map_update (tbl : List TIRecord) (k : String × String)
    (r : TIRecord) (now conf : ℚ) (hfound : tiLookup tbl k = some r) :
    tiLookup (tbl.map (fun s =>
        if tiKey s = k then
          { s with last_seen := now,
                   confidence_score := max s.confidence_score conf }
        else s)) k =
      some { r with last_seen := now,
                    confidence_score := max r.confidence_score conf } := by
  induction tbl with
  | nil => simp [tiLookup] at hfound
  | cons s rest ih =>
    by_cases hk : tiKey s = k
    · simp only [tiLookup, if_pos hk] at hfound
      have hs : s = r := Option.some.inj hfound
      subst hs
      have hk2 : tiKey { s with last_seen := now, confidence_score := max s.confidence_score conf } = k := hk
      simp only [List.map_cons, if_pos hk]
      simp only [tiLookup, if_pos hk2]
    · simp only [tiLookup, if_neg hk] at hfound
      simp only [List.map_cons, if_neg hk]
      simp only [tiLookup, if_neg hk]
      exact ih hfound

/-- C7: the threat-indicator upsert keyed on (type, value) inserts a fresh
record when the key is absent, and otherwise sets `last_seen` to now and the
confidence to `max(existing, new)` — so stored confidence never decreases —
and concretely: upserting the same key with confidences 0.6 then 0.4 leaves
0.6, while 0.6 then 0.9 leaves 0.9. -/
theorem C7_upsert_insert_or_max :
    (∀ (tbl : List TIRecord) (ind : Indicator) (now : ℚ),
      tiLookup tbl (ind.indicator_value, ind.indicator_type) = none →
        tiLookup (upsertThreatIndicator tbl ind now)
            (ind.indicator_value, ind.indicator_type) =
          some (freshTIRecord ind now)) ∧
    (∀ (tbl : List TIRecord) (ind : Indicator) (now : ℚ) (r : TIRecord),
      tiLookup tbl (ind.indicator_value, ind.indicator_type) = some r →
        tiLookup (upsertThreatIndicator tbl ind now)
            (ind.indicator_value, ind.indicator_type) =
          some { r with last_seen := now,
                        confidence_score := max r.confidence_score ind.confidence } ∧
        r.confidence_score ≤ max r.confidence_score ind.confidence) ∧
    (tiLookup
        (upsertThreatIndicator
          (upsertThreatIndicator [] ⟨"ip", "10.0.0.5", "malware", 6/10⟩ 1)
          ⟨"ip", "10.0.0.5", "malware", 4/10⟩ 2)
        ("10.0.0.5", "ip")).map (fun r => r.confidence_score) = some (6/10) ∧
    (tiLookup
        (upsertThreatIndicator
          (upsertThreatIndicator [] ⟨"ip", "10.0.0.5", "malware", 6/10⟩ 1)
          ⟨"ip", "10.0.0.5", "malware", 9/10⟩ 2)
        ("10.0.0.5", "ip")).map (fun r => r.confidence_score) = some (9/10) := by
  refine ⟨?_, ?_, ?_, ?_⟩
  · intro tbl ind now hnone
    unfold upsertThreatIndicator
    rw [hnone]
    exact tiLookup_append_fresh tbl _ _ hnone rfl
  · intro tbl ind now r hfound
    unfold upsertThreatIndicator
    rw [hfound]
    exact ⟨tiLookup_map_update tbl _ r now ind.confidence hfound, le_max_left _ _⟩
  · simp [upsertThreatIndicator, tiLookup, tiKey, freshTIRecord]
    norm_num [max_def]
  · simp [upsertThreatIndicator, tiLookup, tiKey, freshTIRecord]
    norm_num [max_def]

/-- Witness for C7: upserting into an empty table inserts the fresh record. -/
theorem C7_upsert_insert_or_max_witness :
    tiLookup (upsertThreatIndicator [] ⟨"ip", "10.0.0.5", "malware", 6/10⟩ 0)
        ("10.0.0.5", "ip") =
      some (freshTIRecord ⟨"ip", "10.0.0.5", "malware", 6/10⟩ 0) :=
  C7_upsert_insert_or_max.1 [] ⟨"ip", "10.0.0.5", "malware", 6/10⟩ 0 rfl

end SecurityDetection
